import Mathlib

/-!
Verification development for the AgroCast SPI computation core
(`backend/app/services/spi.py`).

Floating-point scalars are modelled as rationals (`ℚ`); calendar dates as
natural-number day offsets; pandas `Series` as association lists from date to
value, with `Option` marking absent/NaN entries.  The numerical routines from
scipy (`gamma.fit`, `gamma.cdf`, `norm.ppf`) and the SARIMAX fitter are
uninterpreted parameters: every theorem about control flow holds for all
choices of these functions.
-/

namespace AgroCast

/-- `categorize_spi` from `spi.py`: the eight-band SPI classifier, translated
branch for branch (thresholds −2.0, −1.5, −1.0, −0.5, 0.5, 1.0, 1.5). -/
def categorize_spi (spi : ℚ) : String :=
  if spi ≤ -2 then "экстремальная засуха"
  else if spi ≤ -(3/2) then "сильная засуха"
  else if spi ≤ -1 then "умеренная засуха"
  else if spi ≤ -(1/2) then "слабо засушливые условия"
  else if spi < 1/2 then "норма по влажности"
  else if spi < 1 then "слабо влажные условия"
  else if spi < 3/2 then "умеренно влажные условия"
  else "очень влажные условия"

/-- The eight half-open bands of the §4.4 table, written from the spec's
interval descriptions (band 0 = extreme drought, …, band 7 = extreme wet). -/
def bandCond (i : ℕ) (x : ℚ) : Prop :=
  if i = 0 then x ≤ -2
  else if i = 1 then -2 < x ∧ x ≤ -(3/2)
  else if i = 2 then -(3/2) < x ∧ x ≤ -1
  else if i = 3 then -1 < x ∧ x ≤ -(1/2)
  else if i = 4 then -(1/2) < x ∧ x < 1/2
  else if i = 5 then 1/2 ≤ x ∧ x < 1
  else if i = 6 then 1 ≤ x ∧ x < 3/2
  else 3/2 ≤ x

/-- The label the classifier attaches to each band. -/
def bandLabel (i : ℕ) : String :=
  if i = 0 then "экстремальная засуха"
  else if i = 1 then "сильная засуха"
  else if i = 2 then "умеренная засуха"
  else if i = 3 then "слабо засушливые условия"
  else if i = 4 then "норма по влажности"
  else if i = 5 then "слабо влажные условия"
  else if i = 6 then "умеренно влажные условия"
  else "очень влажные условия"

/-- Band index of an SPI value, following the same threshold chain as the
source classifier. -/
def bandIdx (x : ℚ) : ℕ :=
  if x ≤ -2 then 0
  else if x ≤ -(3/2) then 1
  else if x ≤ -1 then 2
  else if x ≤ -(1/2) then 3
  else if x < 1/2 then 4
  else if x < 1 then 5
  else if x < 3/2 then 6
  else 7

/-- Classifier written from the spec's §4.4 table (interval conditions stated
explicitly with both bounds, per the table's rows). -/
def spec_categorize (x : ℚ) : String :=
  if x ≤ -2 then "экстремальная засуха"
  else if -2 < x ∧ x ≤ -(3/2) then "сильная засуха"
  else if -(3/2) < x ∧ x ≤ -1 then "умеренная засуха"
  else if -1 < x ∧ x ≤ -(1/2) then "слабо засушливые условия"
  else if -(1/2) < x ∧ x < 1/2 then "норма по влажности"
  else if 1/2 ≤ x ∧ x < 1 then "слабо влажные условия"
  else if 1 ≤ x ∧ x < 3/2 then "умеренно влажные условия"
  else "очень влажные условия"

lemma categorize_eq_spec (x : ℚ) : categorize_spi x = spec_categorize x := by
  unfold categorize_spi spec_categorize
  rcases le_or_lt x (-2) with h1 | h1
  · rw [if_pos h1, if_pos h1]
  · rw [if_neg (not_le.mpr h1), if_neg (not_le.mpr h1)]
    rcases le_or_lt x (-(3/2)) with h2 | h2
    · rw [if_pos h2, if_pos (show -2 < x ∧ x ≤ -(3/2) from ⟨h1, h2⟩)]
    · have n2 : ¬(-2 < x ∧ x ≤ -(3/2)) := fun hc => absurd hc.2 (not_le.mpr h2)
      rw [if_neg (not_le.mpr h2), if_neg n2]
      rcases le_or_lt x (-1) with h3 | h3
      · rw [if_pos h3, if_pos (show -(3/2) < x ∧ x ≤ -1 from ⟨h2, h3⟩)]
      · have n3 : ¬(-(3/2) < x ∧ x ≤ -1) := fun hc => absurd hc.2 (not_le.mpr h3)
        rw [if_neg (not_le.mpr h3), if_neg n3]
        rcases le_or_lt x (-(1/2)) with h4 | h4
        · rw [if_pos h4, if_pos (show -1 < x ∧ x ≤ -(1/2) from ⟨h3, h4⟩)]
        · have n4 : ¬(-1 < x ∧ x ≤ -(1/2)) := fun hc => absurd hc.2 (not_le.mpr h4)
          rw [if_neg (not_le.mpr h4), if_neg n4]
          rcases lt_or_le x (1/2) with h5 | h5
          · rw [if_pos h5, if_pos (show -(1/2) < x ∧ x < 1/2 from ⟨h4, h5⟩)]
          · have n5 : ¬(-(1/2) < x ∧ x < 1/2) := fun hc => absurd hc.2 (not_lt.mpr h5)
            rw [if_neg (not_lt.mpr h5), if_neg n5]
            rcases lt_or_le x 1 with h6 | h6
            · rw [if_pos h6, if_pos (show 1/2 ≤ x ∧ x < 1 from ⟨h5, h6⟩)]
            · have n6 : ¬(1/2 ≤ x ∧ x < 1) := fun hc => absurd hc.2 (not_lt.mpr h6)
              rw [if_neg (not_lt.mpr h6), if_neg n6]
              rcases lt_or_le x (3/2) with h7 | h7
              · rw [if_pos h7, if_pos (show 1 ≤ x ∧ x < 3/2 from ⟨h6, h7⟩)]
              · have n7 : ¬(1 ≤ x ∧ x < 3/2) := fun hc => absurd hc.2 (not_lt.mpr h7)
                rw [if_neg (not_lt.mpr h7), if_neg n7]

lemma bandIdx_lt_eight (x : ℚ) : bandIdx x < 8 := by
  unfold bandIdx
  split_ifs <;> norm_num

lemma bandIdx_cond (x : ℚ) : bandCond (bandIdx x) x := by
  unfold bandIdx
  split_ifs with h1 h2 h3 h4 h5 h6 h7 <;>
    simp only [bandCond] <;>
    norm_num <;>
    first
      | linarith
      | exact ⟨by linarith, by linarith⟩

set_option maxHeartbeats 1600000 in
lemma bandIdx_unique (x : ℚ) (i : ℕ) (hi : i < 8) (h : bandCond i x) : i = bandIdx x := by
  have hv : i = 0 ∨ i = 1 ∨ i = 2 ∨ i = 3 ∨ i = 4 ∨ i = 5 ∨ i = 6 ∨ i = 7 := by omega
  rcases hv with hv | hv | hv | hv | hv | hv | hv | hv <;> subst hv <;>
    simp only [bandCond] at h <;>
    norm_num at h <;>
    unfold bandIdx <;>
    split_ifs <;>
    first
      | rfl
      | (exfalso; linarith [h])

lemma categorize_eq_bandLabel (x : ℚ) : categorize_spi x = bandLabel (bandIdx x) := by
  unfold categorize_spi bandIdx
  split_ifs <;> rfl

/-- C3: `categorize_spi` is a total deterministic function whose eight bands
partition the (rational approximation of the) real line — every value
satisfies exactly one of the §4.4 band conditions and is mapped to that band's
label, the classifier agrees pointwise with the classifier transcribed from
the spec's table, and each boundary value −2.0, −1.5, −1.0, −0.5, 0.5, 1.0,
1.5 lands in exactly the band the table specifies. -/
theorem categorize_spi_partition_c3 :
    (∀ x : ℚ, categorize_spi x = spec_categorize x) ∧
    (∀ x : ℚ, ∃! i : ℕ, i < 8 ∧ bandCond i x) ∧
    (∀ x : ℚ, ∀ i : ℕ, i < 8 → bandCond i x → categorize_spi x = bandLabel i) ∧
    categorize_spi (-2) = "экстремальная засуха" ∧
    categorize_spi (-(3/2)) = "сильная засуха" ∧
    categorize_spi (-1) = "умеренная засуха" ∧
    categorize_spi (-(1/2)) = "слабо засушливые условия" ∧
    categorize_spi (1/2) = "слабо влажные условия" ∧
    categorize_spi 1 = "умеренно влажные условия" ∧
    categorize_spi (3/2) = "очень влажные условия" := by
  refine ⟨categorize_eq_spec, ?_, ?_, ?_, ?_, ?_, ?_, ?_, ?_, ?_⟩
  · intro x
    exact ⟨bandIdx x, ⟨bandIdx_lt_eight x, bandIdx_cond x⟩,
      fun i hi => bandIdx_unique x i hi.1 hi.2⟩
  · intro x i hi hc
    rw [categorize_eq_bandLabel, ← bandIdx_unique x i hi hc]
  all_goals norm_num [categorize_spi]

/-- Closed instance of `categorize_spi_partition_c3`: the value 0 satisfies
the near-normal band condition, so the classifier labels it accordingly. -/
theorem categorize_spi_partition_c3_witness :
    categorize_spi 0 = bandLabel 4 :=
  categorize_spi_partition_c3.2.2.1 0 4 (by norm_num) (by norm_num [bandCond])

/-- `generate_recommendations` from `spi.py`: agronomic advice for the
current SPI value, one fixed list of statements per classifier band
(Python's successive `recs.append` calls in a branch become one list
literal). -/
def generate_recommendations (spi : ℚ) : List String :=
  if spi ≤ -2 then
    ["Фиксируется экстремальный дефицит влаги. В первую очередь имеет смысл сосредоточиться на сохранении почвенной влаги: минимизировать количество проходов техники, отказаться от лишних обработок, сохранять растительные остатки.",
     "При наличии орошения обязательно проверить фактическую влажность почвы и, при подтверждении нехватки влаги, перейти на приоритетный полив наиболее важных полей, вместо равномерного распределения воды.",
     "Пересмотрите планы по поздним затратным операциям (подкормки, обработки): их эффективность в условиях сильной засухи существенно ниже."]
  else if spi ≤ -(3/2) then
    ["Отмечается сильная засуха: осадков за период значительно меньше нормы. Усилить контроль состояния посевов и почвы, особенно в наиболее чувствительных фазах.",
     "Если используется орошение, стоит скорректировать график поливов: сделать акцент на полях, где сейчас проходят ключевые этапы формирования урожая.",
     "Избегайте тяжёлых механических обработок, дополнительно пересушивающих верхний слой почвы."]
  else if spi ≤ -1 then
    ["Умеренный дефицит влаги: количество осадков заметно ниже обычного. Рекомендуется чаще оценивать влажность почвы и внимательно следить за признаками стресса растений.",
     "Планируя подкормки и обработки, учитывайте, что эффективность при дефиците влаги ниже: не стоит завышать ожидания по прибавке урожайности.",
     "По возможности ограничьте лишние проходы техники, чтобы не ухудшать структуру почвы."]
  else if spi ≤ -(1/2) then
    ["Условия немного суше нормы. Пока существенного стресса может не быть, но стоит взять влагу под более плотный контроль.",
     "Имеет смысл заранее продумать, как вы будете действовать при дальнейшем ухудшении ситуации: какие поля и работы будут в приоритете при продолжающемся снижении обеспеченности влагой."]
  else if spi < 1/2 then
    ["Влажность близка к статистической норме для этого периода. Можно придерживаться стандартной технологии выращивания.",
     "Тем не менее, полезно фиксировать текущие параметры (влажность почвы, состояние посевов), чтобы сравнить их с будущими засушливыми или влажными периодами."]
  else if spi < 1 then
    ["Условия немного более влажные, чем обычно. В большинстве случаев это благоприятно, но стоит учитывать, что на тяжёлых почвах возрастает риск переуплотнения при работе техникой.",
     "При планировании заезда в поле проверяйте фактическую проходимость, чтобы не получить колейность и не ухудшить структуру почвы."]
  else if spi < 3/2 then
    ["Осадков больше нормы: умеренно влажные условия. На переувлажнённых участках стоит оценить состояние корневой системы и проветривание посевов.",
     "В таких условиях выше риск развития грибных заболеваний, поэтому важно не пропускать осмотры и профилактические обработки по вашим регламентам."]
  else
    ["Очень влажные условия: осадков существенно больше нормы, возможны застой воды и подтопления пониженных мест.",
     "По возможности ограничьте работу тяжёлой техники до подсыхания почвы, чтобы не вызвать длительное переуплотнение и не ухудшить структуру.",
     "Усилите мониторинг болезней и состояния корневой системы, особенно на участках с плохим дренажем."]

/-- `generate_forecast_recommendations` from `spi.py`: planning-oriented
advice for a forecast SPI value, same band boundaries as the classifier. -/
def generate_forecast_recommendations (spi_forecast : ℚ) : List String :=
  if spi_forecast ≤ -2 then
    ["Прогноз указывает на очень сильный дефицит влаги в ближайший период. Имеет смысл заранее определить поля, которые будут в приоритете по воде и ресурсам, и скорректировать планы работ с учётом возможного снижения урожайности.",
     "Проверьте, нет ли затратных операций (обработки, подкормки), эффективность которых в условиях сильной засухи будет значительно ниже. Их можно перенести или сократить."]
  else if spi_forecast ≤ -(3/2) then
    ["Ожидается сильный дефицит влаги. Стоит заранее оценить, хватит ли ресурсов (вода, техника, люди) для возможного усиления поливов или для изменения графика полевых работ.",
     "Полезно заранее обсудить внутри хозяйства сценарий «засушливого года»: какие поля будут получать больше внимания, а какие останутся на базовой технологии."]
  else if spi_forecast ≤ -1 then
    ["Прогнозируется умеренный дефицит влаги. Это сигнал заранее продумать приоритеты: какие участки наиболее чувствительны к недополиву и в какие сроки.",
     "Можно уже сейчас подготовить план корректировки поливов и переноса части работ, если фактическая погода подтвердит прогноз."]
  else if spi_forecast ≤ -(1/2) then
    ["Прогноз показывает тенденцию к более сухим условиям. Пока это не критично, но при продолжении тренда стоит быть готовыми к ужесточению.",
     "Имеет смысл заранее предусмотреть, какие мероприятия будут пересмотрены в первую очередь, если дефицит влаги усилится (например, часть обработок и поздних подкормок)."]
  else if spi_forecast < 1/2 then
    ["Прогнозируемая обеспеченность влагой близка к норме. Можно планировать работы в обычном режиме.",
     "Тем не менее, стоит отслеживать обновление прогноза: при резком изменении тенденции в сторону засухи или переувлажнения планы можно скорректировать заранее."]
  else if spi_forecast < 1 then
    ["Ожидаются слегка повышенные осадки. Обычно это не создаёт серьёзных проблем, но график работ в поле лучше планировать с запасом по времени на возможные дожди.",
     "Учитывайте, что при частых осадках будет меньше «окон», когда техника может зайти в поле без ущерба для почвы."]
  else if spi_forecast < 3/2 then
    ["Прогнозируется период с осадками выше нормы. Рекомендуется заранее продумать, как будете использовать короткие сухие окна для ключевых операций.",
     "Также стоит предусмотреть усиленный мониторинг болезней, так как влажные условия часто сопровождаются повышенным инфекционным фоном."]
  else
    ["В ближайший период возможны очень влажные условия, в отдельные дни — застой воды. Планируя работы, закладывайте вероятность простоев из-за дождей и непролазной почвы.",
     "Обратите внимание на участки с плохим дренажем: там выше риск выпада растений и проблем с корневой системой."]

lemma generate_recommendations_length (x : ℚ) :
    1 ≤ (generate_recommendations x).length ∧ (generate_recommendations x).length ≤ 4 := by
  unfold generate_recommendations
  split_ifs <;> exact ⟨by norm_num, by norm_num⟩

lemma generate_forecast_recommendations_length (x : ℚ) :
    1 ≤ (generate_forecast_recommendations x).length ∧
      (generate_forecast_recommendations x).length ≤ 4 := by
  unfold generate_forecast_recommendations
  split_ifs <;> exact ⟨by norm_num, by norm_num⟩

set_option maxHeartbeats 1600000 in
lemma generate_recommendations_factor (x y : ℚ)
    (h : categorize_spi x = categorize_spi y) :
    generate_recommendations x = generate_recommendations y := by
  unfold categorize_spi at h
  unfold generate_recommendations
  split_ifs at h ⊢ <;> first | rfl | exact absurd h (by decide)

set_option maxHeartbeats 1600000 in
lemma generate_forecast_recommendations_factor (x y : ℚ)
    (h : categorize_spi x = categorize_spi y) :
    generate_forecast_recommendations x = generate_forecast_recommendations y := by
  unfold categorize_spi at h
  unfold generate_forecast_recommendations
  split_ifs at h ⊢ <;> first | rfl | exact absurd h (by decide)

/-- C9: both recommendation engines return a non-empty list of 1–4 advisory
statements for every SPI value, and the band that selects the statements
follows the classifier: whenever two values classify identically, both
engines return identical lists, so each engine's band structure coincides
with the eight `categorize_spi` bands. -/
theorem recommendations_c9 :
    (∀ x : ℚ, 1 ≤ (generate_recommendations x).length ∧
        (generate_recommendations x).length ≤ 4) ∧
    (∀ x : ℚ, 1 ≤ (generate_forecast_recommendations x).length ∧
        (generate_forecast_recommendations x).length ≤ 4) ∧
    (∀ x y : ℚ, categorize_spi x = categorize_spi y →
        generate_recommendations x = generate_recommendations y ∧
        generate_forecast_recommendations x = generate_forecast_recommendations y) :=
  ⟨generate_recommendations_length, generate_forecast_recommendations_length,
    fun x y h => ⟨generate_recommendations_factor x y h,
      generate_forecast_recommendations_factor x y h⟩⟩

/-- Closed instance of `recommendations_c9`: 0 and 1/4 classify identically,
so both engines agree on them. -/
theorem recommendations_c9_witness :
    generate_recommendations 0 = generate_recommendations (1/4) ∧
    generate_forecast_recommendations 0 = generate_forecast_recommendations (1/4) :=
  recommendations_c9.2.2 0 (1/4) (by norm_num [categorize_spi])

/-- A fetched precipitation series (`fetch_daily_precipitation`): dates
strictly increasing (sorted, no duplicates — missing days simply absent after
`dropna`) and all amounts non-negative (clamped with `clip(lower=0)`).
Dates are day numbers, amounts are rationals. -/
def validPrecipSeries (s : List (Nat × ℚ)) : Prop :=
  List.Chain' (· < ·) (s.map Prod.fst) ∧ ∀ e ∈ s, 0 ≤ e.2

/-- `Series.rolling(window=w).sum()` with an integer window, as pandas
computes it on the (gap-free-after-dropna) series: the window is positional,
entry `i` is the sum of the `w` most recent observations when at least `w`
observations exist (`min_periods` defaults to the window size), `NaN`
(`none`) otherwise.  The calendar index is carried along unchanged. -/
def rollingSum (w : Nat) (s : List (Nat × ℚ)) : List (Nat × Option ℚ) :=
  s.enum.map fun p =>
    (p.2.1, if w ≤ p.1 + 1
      then some ((((s.drop (p.1 + 1 - w)).take w).map Prod.snd).sum)
      else none)

/-- Whether calendar day `d` carries an observation in series `s`. -/
def hasDate (s : List (Nat × ℚ)) (d : Nat) : Bool :=
  s.any fun e => e.1 == d

/-- The trailing `w`-calendar-day window ending at day `dEnd` contains at
least one absent day of `s`. -/
def gapInWindow (s : List (Nat × ℚ)) (w dEnd : Nat) : Prop :=
  ∃ d : Nat, dEnd + 1 ≤ d + w ∧ d ≤ dEnd ∧ hasDate s d = false

/-- Claim C1 as stated: on every valid precipitation series, a rolling-sum
entry whose trailing calendar window contains an absent day is undefined. -/
def claimC1 : Prop :=
  ∀ (s : List (Nat × ℚ)) (w dEnd : Nat) (o : Option ℚ),
    validPrecipSeries s → 1 ≤ w →
    (dEnd, o) ∈ rollingSum w s → gapInWindow s w dEnd → o = none

/-- C1 fails on the code: for the valid series with observations on days
0, 1 and 3 (day 2 absent) and window 2, the entry dated day 3 — whose
2-day calendar window {2, 3} contains the absent day 2 — is the defined
sum 2, not `none`: the integer-window `rolling` is positional and the
absent day was dropped before aggregation. -/
theorem rollingSum_gap_c1_counterexample : ¬ claimC1 := by
  intro h
  have hroll : rollingSum 2 [(0, 1), (1, 1), (3, 1)] =
      [(0, none), (1, some 2), (3, some 2)] := by
    norm_num [rollingSum, List.enum, List.enumFrom]
  have hmem : ((3 : ℕ), some (2 : ℚ)) ∈ rollingSum 2 [(0, 1), (1, 1), (3, 1)] := by
    rw [hroll]; simp
  have hvalid : validPrecipSeries [(0, 1), (1, 1), (3, 1)] := by
    constructor
    · simp [List.chain'_cons]
    · intro e he
      simp at he
      rcases he with rfl | rfl | rfl <;> norm_num
  have h2 := h [(0, 1), (1, 1), (3, 1)] 2 3 (some 2) hvalid (by norm_num) hmem
    ⟨2, by norm_num, by norm_num, rfl⟩
  simp at h2

/-- C1 amended: after `dropna`, the rolling window counts observations, not
calendar days — an entry is undefined exactly when fewer than `w`
observations precede it, and otherwise it is the (full, defined) sum of the
`w` most recent present observations, regardless of calendar gaps inside
the window's date span. -/
theorem rollingSum_gap_amended_c1 (s : List (Nat × ℚ)) (w i : Nat)
    (e : Nat × Option ℚ) (hw : 1 ≤ w) (he : (rollingSum w s).get? i = some e) :
    (i + 1 < w → e.2 = none) ∧
    (w ≤ i + 1 → e.2 = some ((((s.drop (i + 1 - w)).take w).map Prod.snd).sum)) := by
  unfold rollingSum at he
  rw [List.get?_map, List.get?_enum] at he
  cases hq : s.get? i with
  | none => rw [hq] at he; simp at he
  | some a =>
    rw [hq] at he
    simp only [Option.map_some', Option.some.injEq] at he
    subst he
    constructor
    · intro hlt
      rw [if_neg (by omega)]
    · intro hge
      rw [if_pos (by omega)]

/-- Closed instance of `rollingSum_gap_amended_c1` at the gapped series of
the counterexample: the post-gap entry is the full sum of the two most
recent observations. -/
theorem rollingSum_gap_amended_c1_witness :
    ((3, some (2 : ℚ)) : Nat × Option ℚ).2 =
      some (((([((0 : Nat), (1 : ℚ)), (1, 1), (3, 1)].drop (2 + 1 - 2)).take 2).map
        Prod.snd).sum) :=
  (rollingSum_gap_amended_c1 [(0, 1), (1, 1), (3, 1)] 2 2 (3, some 2)
    (by norm_num)
    (by norm_num [rollingSum, List.enum, List.enumFrom])).2 (by norm_num)

/-- A gap-free daily series of constant value `v` on days `d0, …, d0+n−1`. -/
def constSeries (d0 : Nat) (v : ℚ) (n : Nat) : List (Nat × ℚ) :=
  (List.range n).map fun i => (d0 + i, v)

/-- C7: on a gap-free constant daily series of value `v` over `n ≥ w` days,
the rolling-sum output is aligned to the same index, exactly the first
`w − 1` entries are undefined, and every defined entry equals `v × w`. -/
theorem rollingSum_const_c7 (d0 : Nat) (v : ℚ) (n w : Nat)
    (hw : 1 ≤ w) (hn : w ≤ n) :
    (rollingSum w (constSeries d0 v n)).length = n ∧
    ∀ i, i < n →
      (rollingSum w (constSeries d0 v n)).get? i =
        some (d0 + i, if w ≤ i + 1 then some (v * w) else none) := by
  constructor
  · simp [rollingSum, constSeries]
  · intro i hi
    have hget : (constSeries d0 v n).get? i = some (d0 + i, v) := by
      simp [constSeries, List.get?_map, List.get?_range, hi]
    have hsnd : (constSeries d0 v n).map Prod.snd = List.replicate n v := by
      unfold constSeries
      rw [List.map_map]
      show (List.range n).map (fun _ => v) = List.replicate n v
      rw [List.map_const']
      simp
    unfold rollingSum
    rw [List.get?_map, List.get?_enum, hget]
    simp only [Option.map_some', Option.some.injEq]
    by_cases hcase : w ≤ i + 1
    · have hwin : (((constSeries d0 v n).drop (i + 1 - w)).take w).map Prod.snd
          = List.replicate w v := by
        rw [List.map_take, List.map_drop, hsnd, List.drop_replicate,
          List.take_replicate]
        congr 1
        omega
      rw [if_pos hcase, if_pos hcase, hwin, List.sum_replicate, nsmul_eq_mul,
        mul_comm]
    · rw [if_neg hcase, if_neg hcase]

/-- Closed instance of `rollingSum_const_c7`: constant value 2 over 3 days,
window 2 — the last entry is the defined sum 4 and the first is undefined. -/
theorem rollingSum_const_c7_witness :
    (rollingSum 2 (constSeries 5 2 3)).length = 3 ∧
    (rollingSum 2 (constSeries 5 2 3)).get? 2 =
      some (5 + 2, if 2 ≤ 2 + 1 then some ((2 : ℚ) * (2 : Nat)) else none) :=
  ⟨(rollingSum_const_c7 5 2 3 2 (by norm_num) (by norm_num)).1,
    (rollingSum_const_c7 5 2 3 2 (by norm_num) (by norm_num)).2 2 (by norm_num)⟩

/-- Errors raised by `_compute_spi_series_from_sums` (each Python
`raise ValueError(...)` site, in program order). -/
inductive SpiError where
  | insufficientData
  | insufficientPositive
  | degenerateDistribution
  | fitFailure (msg : String)
  | allZero
  | noValidValues
deriving DecidableEq

/-- pandas `Series.dropna()`: keep the defined entries, preserving index and
order. -/
def dropna (s : List (Nat × Option ℚ)) : List (Nat × ℚ) :=
  s.filterMap fun e => e.2.map fun v => (e.1, v)

/-- The strictly-positive subset of the clean series (`rolling_clean[rolling_clean > 0]`). -/
def posOf (rs : List (Nat × Option ℚ)) : List (Nat × ℚ) :=
  (dropna rs).filter fun e => decide (0 < e.2)

/-- `np.clip(x, lo, hi)`. -/
def clip (x lo hi : ℚ) : ℚ := min (max x lo) hi

/-- The gamma→normal transform applied to a clean series: positions with a
strictly positive sum get `ppf (clip (cdf params v) 1e-6 (1 - 1e-6))`, the
rest stay NaN (`spi_series[mask] = norm.ppf(cdf_vals)` over `mask = rolling_clean > 0`). -/
def spiTransform (cdf : ℚ × ℚ × ℚ → ℚ → ℚ) (ppf : ℚ → ℚ) (params : ℚ × ℚ × ℚ)
    (clean : List (Nat × ℚ)) : List (Nat × Option ℚ) :=
  clean.map fun e =>
    (e.1, if 0 < e.2
      then some (ppf (clip (cdf params e.2) (1/1000000) (1 - 1/1000000)))
      else none)

/-- `_compute_spi_series_from_sums` from `spi.py`, control flow translated
statement by statement.  The scipy numerical routines are parameters:
`fit` models `gamma.fit(..., floc=0)` (returning `(shape, loc, scale)` or
raising), `cdf` models `gamma.cdf` with those parameters, `ppf` models
`norm.ppf`; every theorem below holds for all choices of them. -/
def compute_spi_series_from_sums (fit : List ℚ → Except String (ℚ × ℚ × ℚ))
    (cdf : ℚ × ℚ × ℚ → ℚ → ℚ) (ppf : ℚ → ℚ)
    (rolling_sums : List (Nat × Option ℚ)) :
    Except SpiError (List (Nat × Option ℚ) × ℚ) :=
  let rolling_clean := dropna rolling_sums
  if rolling_clean.length < 30 then .error .insufficientData
  else
    let rolling_pos := rolling_clean.filter fun e => decide (0 < e.2)
    if rolling_pos.length < 30 then .error .insufficientPositive
    else if (rolling_pos.map Prod.snd).dedup.length = 1 then
      .error .degenerateDistribution
    else
      match fit (rolling_pos.map Prod.snd) with
      | .error msg => .error (.fitFailure msg)
      | .ok params =>
        if (rolling_clean.filter fun e => decide (0 < e.2)).length = 0 then
          .error .allZero
        else
          let spi_series := spiTransform cdf ppf params rolling_clean
          match (dropna spi_series).getLast? with
          | none => .error .noValidValues
          | some lastv => .ok (spi_series, lastv.2)

lemma compute_spi_eq (fit : List ℚ → Except String (ℚ × ℚ × ℚ))
    (cdf : ℚ × ℚ × ℚ → ℚ → ℚ) (ppf : ℚ → ℚ) (rs : List (Nat × Option ℚ)) :
    compute_spi_series_from_sums fit cdf ppf rs =
      if (dropna rs).length < 30 then .error .insufficientData
      else if (posOf rs).length < 30 then .error .insufficientPositive
      else if ((posOf rs).map Prod.snd).dedup.length = 1 then
        .error .degenerateDistribution
      else
        match fit ((posOf rs).map Prod.snd) with
        | .error msg => .error (.fitFailure msg)
        | .ok params =>
          if (posOf rs).length = 0 then .error .allZero
          else
            match (dropna (spiTransform cdf ppf params (dropna rs))).getLast? with
            | none => .error .noValidValues
            | some lastv =>
              .ok (spiTransform cdf ppf params (dropna rs), lastv.2) := rfl

lemma dropna_spiTransform (cdf : ℚ × ℚ × ℚ → ℚ → ℚ) (ppf : ℚ → ℚ)
    (params : ℚ × ℚ × ℚ) (clean : List (Nat × ℚ)) :
    dropna (spiTransform cdf ppf params clean) =
      (clean.filter fun e => decide (0 < e.2)).map
        (fun e => (e.1, ppf (clip (cdf params e.2) (1/1000000) (1 - 1/1000000)))) := by
  induction clean with
  | nil => rfl
  | cons a t ih =>
    by_cases h : 0 < a.2 <;>
      simp [dropna, spiTransform, List.filterMap_cons, List.filter_cons, h] <;>
      simpa [dropna, spiTransform] using ih

/-- C4: the estimator raises the insufficient-data error exactly when the
clean series has fewer than 30 entries; it raises the
insufficient-positive / degenerate-distribution class exactly when (the
clean check passed and) the strictly positive subset has fewer than 30
entries or all positive values are identical; in particular a clean series
of exactly 29 entries fails with insufficient-data, while one of exactly 30
entries, all positive with at least two distinct values and a convergent
fit, succeeds. -/
theorem spi_insufficiency_c4 (fit : List ℚ → Except String (ℚ × ℚ × ℚ))
    (cdf : ℚ × ℚ × ℚ → ℚ → ℚ) (ppf : ℚ → ℚ) (rs : List (Nat × Option ℚ)) :
    (compute_spi_series_from_sums fit cdf ppf rs = .error .insufficientData ↔
      (dropna rs).length < 30) ∧
    (compute_spi_series_from_sums fit cdf ppf rs = .error .insufficientPositive ↔
      30 ≤ (dropna rs).length ∧ (posOf rs).length < 30) ∧
    (compute_spi_series_from_sums fit cdf ppf rs = .error .degenerateDistribution ↔
      30 ≤ (dropna rs).length ∧ 30 ≤ (posOf rs).length ∧
        ((posOf rs).map Prod.snd).dedup.length = 1) ∧
    ((dropna rs).length = 29 →
      compute_spi_series_from_sums fit cdf ppf rs = .error .insufficientData) ∧
    ((dropna rs).length = 30 → 30 ≤ (posOf rs).length →
      2 ≤ ((posOf rs).map Prod.snd).dedup.length →
      ∀ params, fit ((posOf rs).map Prod.snd) = .ok params →
      ∃ series latest,
        compute_spi_series_from_sums fit cdf ppf rs = .ok (series, latest)) := by
  rw [compute_spi_eq]
  by_cases h1 : (dropna rs).length < 30
  · rw [if_pos h1]
    exact ⟨by simp [h1], by simp; omega, by simp; omega, fun _ => rfl,
      fun h30 => absurd h1 (by omega)⟩
  · rw [if_neg h1]
    by_cases h2 : (posOf rs).length < 30
    · rw [if_pos h2]
      exact ⟨by simp; omega, by simp; omega, by simp; omega,
        fun h29 => absurd h1 (by omega),
        fun _ h30p => absurd h2 (by omega)⟩
    · rw [if_neg h2]
      by_cases h3 : ((posOf rs).map Prod.snd).dedup.length = 1
      · rw [if_pos h3]
        exact ⟨by simp; omega, by simp; omega, by simp; omega,
          fun h29 => absurd h1 (by omega),
          fun _ _ hded => absurd h3 (by omega)⟩
      · rw [if_neg h3]
        cases hfit : fit ((posOf rs).map Prod.snd) with
        | error msg =>
          dsimp only
          refine ⟨by simp; omega, by simp; omega, by simp; omega,
            fun h29 => absurd h1 (by omega), ?_⟩
          intro _ _ _ params hparams
          simp at hparams
        | ok params =>
          dsimp only
          rw [if_neg (by omega)]
          cases hlast : (dropna (spiTransform cdf ppf params (dropna rs))).getLast? with
          | none =>
            exfalso
            rw [dropna_spiTransform] at hlast
            have hnil : posOf rs = [] := by
              have hmap := List.getLast?_eq_none_iff.mp hlast
              exact List.map_eq_nil_iff.mp hmap
            rw [hnil] at h2
            simp at h2
          | some lastv =>
            dsimp only
            refine ⟨by simp; omega, by simp; omega, by simp; omega,
              fun h29 => absurd h1 (by omega), ?_⟩
            intro _ _ _ params2 hparams2
            exact ⟨_, _, rfl⟩

/-- Closed instance of `spi_insufficiency_c4`: an all-absent rolling series
(clean length 0 < 30) is rejected with the insufficient-data error, for a
concrete choice of the scipy parameters. -/
theorem spi_insufficiency_c4_witness :
    compute_spi_series_from_sums (fun _ => .ok (1, 0, 1)) (fun _ x => x)
      (fun x => x) [(0, none), (1, none)] = .error .insufficientData :=
  (spi_insufficiency_c4 (fun _ => .ok (1, 0, 1)) (fun _ x => x) (fun x => x)
    [(0, none), (1, none)]).1.mpr (by simp [dropna])

lemma compute_spi_ok_inv (fit : List ℚ → Except String (ℚ × ℚ × ℚ))
    (cdf : ℚ × ℚ × ℚ → ℚ → ℚ) (ppf : ℚ → ℚ) (rs : List (Nat × Option ℚ))
    (series : List (Nat × Option ℚ)) (latest : ℚ)
    (h : compute_spi_series_from_sums fit cdf ppf rs = .ok (series, latest)) :
    30 ≤ (dropna rs).length ∧ 30 ≤ (posOf rs).length ∧
    ∃ params lastv,
      fit ((posOf rs).map Prod.snd) = .ok params ∧
      series = spiTransform cdf ppf params (dropna rs) ∧
      (dropna series).getLast? = some lastv ∧ latest = lastv.2 := by
  rw [compute_spi_eq] at h
  by_cases h1 : (dropna rs).length < 30
  · rw [if_pos h1] at h; simp at h
  rw [if_neg h1] at h
  by_cases h2 : (posOf rs).length < 30
  · rw [if_pos h2] at h; simp at h
  rw [if_neg h2] at h
  by_cases h3 : ((posOf rs).map Prod.snd).dedup.length = 1
  · rw [if_pos h3] at h; simp at h
  rw [if_neg h3] at h
  cases hfit : fit ((posOf rs).map Prod.snd) with
  | error msg => rw [hfit] at h; simp at h
  | ok params =>
    rw [hfit] at h
    dsimp only at h
    rw [if_neg (by omega)] at h
    cases hlast : (dropna (spiTransform cdf ppf params (dropna rs))).getLast? with
    | none => rw [hlast] at h; simp at h
    | some lastv =>
      rw [hlast] at h
      dsimp only at h
      rw [Except.ok.injEq, Prod.mk.injEq] at h
      obtain ⟨hs, hl⟩ := h
      subst hs
      exact ⟨by omega, by omega, params, lastv, by simp [hfit], rfl, hlast, hl.symm⟩

set_option linter.unusedVariables false in
lemma mem_spiTransform_of_pos (cdf : ℚ × ℚ × ℚ → ℚ → ℚ) (ppf : ℚ → ℚ)
    (params : ℚ × ℚ × ℚ) (clean : List (Nat × ℚ)) (e : Nat × ℚ)
    (he : e ∈ clean) (hpos : 0 < e.2) :
    (e.1, some (ppf (clip (cdf params e.2) (1/1000000) (1 - 1/1000000)))) ∈
      spiTransform cdf ppf params clean := by
  unfold spiTransform
  refine List.mem_map.mpr ⟨e, he, ?_⟩
  dsimp only
  rw [if_pos hpos]

set_option linter.unusedVariables false in
lemma mem_spiTransform_of_nonpos (cdf : ℚ × ℚ × ℚ → ℚ → ℚ) (ppf : ℚ → ℚ)
    (params : ℚ × ℚ × ℚ) (clean : List (Nat × ℚ)) (e : Nat × ℚ)
    (he : e ∈ clean) (hnonpos : e.2 ≤ 0) :
    ((e.1, none) : Nat × Option ℚ) ∈ spiTransform cdf ppf params clean := by
  unfold spiTransform
  refine List.mem_map.mpr ⟨e, he, ?_⟩
  dsimp only
  rw [if_neg (by linarith)]

lemma compute_spi_ok_of_checks (fit : List ℚ → Except String (ℚ × ℚ × ℚ))
    (cdf : ℚ × ℚ × ℚ → ℚ → ℚ) (ppf : ℚ → ℚ) (rs : List (Nat × Option ℚ))
    (params : ℚ × ℚ × ℚ)
    (h1 : ¬(dropna rs).length < 30) (h2 : ¬(posOf rs).length < 30)
    (h3 : ((posOf rs).map Prod.snd).dedup.length ≠ 1)
    (hfit : fit ((posOf rs).map Prod.snd) = .ok params) :
    ∃ lastv,
      (dropna (spiTransform cdf ppf params (dropna rs))).getLast? = some lastv ∧
      compute_spi_series_from_sums fit cdf ppf rs =
        .ok (spiTransform cdf ppf params (dropna rs), lastv.2) := by
  rw [compute_spi_eq, if_neg h1, if_neg h2, if_neg h3, hfit]
  dsimp only
  rw [if_neg (by omega)]
  cases hlast : (dropna (spiTransform cdf ppf params (dropna rs))).getLast? with
  | none =>
    exfalso
    rw [dropna_spiTransform] at hlast
    have hnil : posOf rs = [] :=
      List.map_eq_nil_iff.mp (List.getLast?_eq_none_iff.mp hlast)
    rw [hnil] at h2
    simp at h2
  | some lastv => exact ⟨lastv, by simp [hlast], rfl⟩

/-- C5: whenever the estimator succeeds, the returned SPI series is exactly
the gamma→normal transform of the clean series under the fitted parameters:
every strictly positive clean entry is mapped to
`ppf (clip (cdf params v) 1e-6 (1-1e-6))`, and every clean entry `≤ 0`
remains undefined (it is never given a constant value). -/
theorem spi_transform_values_c5 (fit : List ℚ → Except String (ℚ × ℚ × ℚ))
    (cdf : ℚ × ℚ × ℚ → ℚ → ℚ) (ppf : ℚ → ℚ) (rs : List (Nat × Option ℚ))
    (series : List (Nat × Option ℚ)) (latest : ℚ)
    (h : compute_spi_series_from_sums fit cdf ppf rs = .ok (series, latest)) :
    ∃ params,
      fit ((posOf rs).map Prod.snd) = .ok params ∧
      series = spiTransform cdf ppf params (dropna rs) ∧
      (∀ e ∈ dropna rs, 0 < e.2 →
        (e.1, some (ppf (clip (cdf params e.2) (1/1000000) (1 - 1/1000000)))) ∈ series) ∧
      (∀ e ∈ dropna rs, e.2 ≤ 0 → ((e.1, none) : Nat × Option ℚ) ∈ series) := by
  obtain ⟨-, -, params, lastv, hfit, hs, -, -⟩ :=
    compute_spi_ok_inv fit cdf ppf rs series latest h
  subst hs
  exact ⟨params, hfit, rfl,
    fun e he hpos => mem_spiTransform_of_pos cdf ppf params (dropna rs) e he hpos,
    fun e he hnp => mem_spiTransform_of_nonpos cdf ppf params (dropna rs) e he hnp⟩

/-- C8: on success, the returned "latest" SPI value is the last defined
entry of the output series in index order, and the series does have defined
entries; over all inputs, the no-valid-values error is raised exactly when
the computation reaches the transform and the transformed series has no
defined entry — a condition that, after the ≥30-positive-entries check, can
in fact never occur, so the estimator never raises it. -/
theorem spi_latest_c8 (fit : List ℚ → Except String (ℚ × ℚ × ℚ))
    (cdf : ℚ × ℚ × ℚ → ℚ → ℚ) (ppf : ℚ → ℚ) (rs : List (Nat × Option ℚ)) :
    (∀ series latest,
      compute_spi_series_from_sums fit cdf ppf rs = .ok (series, latest) →
        dropna series ≠ [] ∧
        ∃ lastv, (dropna series).getLast? = some lastv ∧ latest = lastv.2) ∧
    (compute_spi_series_from_sums fit cdf ppf rs = .error .noValidValues ↔
      ∃ params,
        ¬(dropna rs).length < 30 ∧ ¬(posOf rs).length < 30 ∧
        ((posOf rs).map Prod.snd).dedup.length ≠ 1 ∧
        fit ((posOf rs).map Prod.snd) = .ok params ∧
        dropna (spiTransform cdf ppf params (dropna rs)) = []) ∧
    compute_spi_series_from_sums fit cdf ppf rs ≠ .error .noValidValues := by
  have hrhs : ∀ params : ℚ × ℚ × ℚ,
      ¬(posOf rs).length < 30 →
      dropna (spiTransform cdf ppf params (dropna rs)) = [] → False := by
    intro params h2 hnil
    rw [dropna_spiTransform] at hnil
    have : posOf rs = [] := List.map_eq_nil_iff.mp hnil
    rw [this] at h2
    simp at h2
  have hnever :
      compute_spi_series_from_sums fit cdf ppf rs ≠ .error .noValidValues := by
    intro h
    rw [compute_spi_eq] at h
    by_cases h1 : (dropna rs).length < 30
    · rw [if_pos h1] at h; simp at h
    rw [if_neg h1] at h
    by_cases h2 : (posOf rs).length < 30
    · rw [if_pos h2] at h; simp at h
    rw [if_neg h2] at h
    by_cases h3 : ((posOf rs).map Prod.snd).dedup.length = 1
    · rw [if_pos h3] at h; simp at h
    rw [if_neg h3] at h
    cases hfit : fit ((posOf rs).map Prod.snd) with
    | error msg => rw [hfit] at h; simp at h
    | ok params =>
      rw [hfit] at h
      dsimp only at h
      rw [if_neg (by omega)] at h
      cases hlast : (dropna (spiTransform cdf ppf params (dropna rs))).getLast? with
      | none =>
        exact hrhs params h2 (List.getLast?_eq_none_iff.mp hlast)
      | some lastv => rw [hlast] at h; simp at h
  refine ⟨?_, ⟨fun h => absurd h hnever, ?_⟩, hnever⟩
  · intro series latest h
    obtain ⟨-, h2, params, lastv, -, hs, hlast, hl⟩ :=
      compute_spi_ok_inv fit cdf ppf rs series latest h
    refine ⟨?_, lastv, hlast, hl⟩
    intro hnil
    rw [hnil] at hlast
    simp at hlast
  · rintro ⟨params, -, h2, -, -, hnil⟩
    exact absurd (hrhs params h2 hnil) (by simp)

/-- Concrete stand-in for `gamma.fit`: always converges to fixed
parameters. -/
def fitK : List ℚ → Except String (ℚ × ℚ × ℚ) := fun _ => .ok (1, 0, 1)

/-- Concrete stand-in for `gamma.cdf`. -/
def cdfK : ℚ × ℚ × ℚ → ℚ → ℚ := fun _ x => x

/-- Concrete stand-in for `norm.ppf`. -/
def ppfK : ℚ → ℚ := fun x => x

/-- A concrete rolling-sum series with 30 defined, strictly positive,
non-constant entries. -/
def exampleRS : List (Nat × Option ℚ) :=
  (List.range 30).map fun i => (i, some ((i : ℚ) + 1))

lemma dropna_exampleRS :
    dropna exampleRS = (List.range 30).map fun i : ℕ => (i, (i : ℚ) + 1) := by
  unfold exampleRS dropna
  rw [List.filterMap_map]
  exact List.filterMap_eq_map (fun i : ℕ => (i, (i : ℚ) + 1)) ▸ rfl

lemma posOf_exampleRS :
    posOf exampleRS = (List.range 30).map fun i : ℕ => (i, (i : ℚ) + 1) := by
  unfold posOf
  rw [dropna_exampleRS]
  apply List.filter_eq_self.mpr
  intro a ha
  obtain ⟨i, -, rfl⟩ := List.mem_map.mp ha
  simp only [decide_eq_true_eq]
  have : (0 : ℚ) ≤ (i : ℚ) := Nat.cast_nonneg i
  linarith

lemma two_le_dedup_length (l : List ℚ) (a b : ℚ)
    (ha : a ∈ l) (hb : b ∈ l) (hab : a ≠ b) : 2 ≤ l.dedup.length := by
  have ha' : a ∈ l.dedup := List.mem_dedup.mpr ha
  have hb' : b ∈ l.dedup := List.mem_dedup.mpr hb
  rcases hd : l.dedup with _ | ⟨x, _ | ⟨y, t⟩⟩
  · rw [hd] at ha'; simp at ha'
  · rw [hd] at ha' hb'
    simp at ha' hb'
    exact absurd (ha'.trans hb'.symm) hab
  · simp

lemma exampleRS_checks :
    ¬(dropna exampleRS).length < 30 ∧ ¬(posOf exampleRS).length < 30 ∧
      ((posOf exampleRS).map Prod.snd).dedup.length ≠ 1 := by
  refine ⟨by rw [dropna_exampleRS]; simp, by rw [posOf_exampleRS]; simp, ?_⟩
  have h2 : 2 ≤ ((posOf exampleRS).map Prod.snd).dedup.length := by
    apply two_le_dedup_length _ 1 2
    · rw [posOf_exampleRS, List.map_map]
      exact List.mem_map.mpr ⟨0, by simp, by norm_num⟩
    · rw [posOf_exampleRS, List.map_map]
      exact List.mem_map.mpr ⟨1, by simp, by norm_num⟩
    · norm_num
  omega

/-- Closed instance of `spi_transform_values_c5` at a concrete 30-entry
positive series with concrete stand-ins for the scipy routines. -/
theorem spi_transform_values_c5_witness :
    ∃ series latest,
      compute_spi_series_from_sums fitK cdfK ppfK exampleRS = .ok (series, latest) ∧
      ∃ params,
        fitK ((posOf exampleRS).map Prod.snd) = .ok params ∧
        series = spiTransform cdfK ppfK params (dropna exampleRS) ∧
        (∀ e ∈ dropna exampleRS, 0 < e.2 →
          (e.1, some (ppfK (clip (cdfK params e.2) (1/1000000) (1 - 1/1000000)))) ∈ series) ∧
        (∀ e ∈ dropna exampleRS, e.2 ≤ 0 → ((e.1, none) : Nat × Option ℚ) ∈ series) := by
  obtain ⟨h1, h2, h3⟩ := exampleRS_checks
  obtain ⟨lastv, -, hok⟩ :=
    compute_spi_ok_of_checks fitK cdfK ppfK exampleRS (1, 0, 1) h1 h2 h3 rfl
  exact ⟨_, _, hok, spi_transform_values_c5 fitK cdfK ppfK exampleRS _ _ hok⟩

/-- Closed instance of `spi_latest_c8` at the same concrete series: the
successful run returns the last defined entry of the output. -/
theorem spi_latest_c8_witness :
    ∃ series latest,
      compute_spi_series_from_sums fitK cdfK ppfK exampleRS = .ok (series, latest) ∧
      dropna series ≠ [] ∧
      ∃ lastv, (dropna series).getLast? = some lastv ∧ latest = lastv.2 := by
  obtain ⟨h1, h2, h3⟩ := exampleRS_checks
  obtain ⟨lastv, -, hok⟩ :=
    compute_spi_ok_of_checks fitK cdfK ppfK exampleRS (1, 0, 1) h1 h2 h3 rfl
  obtain ⟨hne, lv, hl, he⟩ :=
    (spi_latest_c8 fitK cdfK ppfK exampleRS).1 _ _ hok
  exact ⟨_, _, hok, hne, lv, hl, he⟩

/-- Errors of the multi-scale orchestrator: the empty-scales guard, the
per-scale range guard, and a wrapped estimator error. -/
inductive MultiError where
  | emptyScales
  | scaleOutOfRange
  | spiError (e : SpiError)
deriving DecidableEq

/-- One scale's pipeline inside the loop of
`compute_multi_scale_spi_for_point`: rolling sums over `scale * 30` days,
then the estimator, then the classifier on the latest value. -/
def computeOneScale (fit : List ℚ → Except String (ℚ × ℚ × ℚ))
    (cdf : ℚ × ℚ × ℚ → ℚ → ℚ) (ppf : ℚ → ℚ) (prcp : List (Nat × ℚ))
    (scale : ℕ) : Except SpiError (ℚ × String) :=
  match compute_spi_series_from_sums fit cdf ppf (rollingSum (scale * 30) prcp) with
  | .error e => .error e
  | .ok (_, latest) => .ok (latest, categorize_spi latest)

/-- `sorted(set(scales_months))`: deduplicate, then sort ascending. -/
def dedupSort (l : List ℕ) : List ℕ :=
  List.insertionSort (· ≤ ·) l.dedup

/-- The `for scale in unique_scales` loop: per-scale range check, one
pipeline run per scale, results collected in ascending-scale order; the
first exception aborts the loop. -/
def multiGo (fit : List ℚ → Except String (ℚ × ℚ × ℚ))
    (cdf : ℚ × ℚ × ℚ → ℚ → ℚ) (ppf : ℚ → ℚ) (prcp : List (Nat × ℚ)) :
    List ℕ → Except MultiError (List (ℕ × ℚ × String))
  | [] => .ok []
  | s :: rest =>
    if s < 1 ∨ 24 < s then .error .scaleOutOfRange
    else
      match computeOneScale fit cdf ppf prcp s with
      | .error e => .error (.spiError e)
      | .ok pr =>
        match multiGo fit cdf ppf prcp rest with
        | .error e => .error e
        | .ok tailm => .ok ((s, pr) :: tailm)

/-- `compute_multi_scale_spi_for_point` from `spi.py`, with the fetched
precipitation series passed in place of the Meteostat fetch (the boundary
cut): empty-scales guard, dedup + ascending sort, then the per-scale loop
over the one shared series. -/
def compute_multi_scale_spi_for_point (fit : List ℚ → Except String (ℚ × ℚ × ℚ))
    (cdf : ℚ × ℚ × ℚ → ℚ → ℚ) (ppf : ℚ → ℚ) (prcp : List (Nat × ℚ))
    (scales_months : List ℕ) : Except MultiError (List (ℕ × ℚ × String)) :=
  if scales_months = [] then .error .emptyScales
  else multiGo fit cdf ppf prcp (dedupSort scales_months)

lemma multiGo_ok_map (fit : List ℚ → Except String (ℚ × ℚ × ℚ))
    (cdf : ℚ × ℚ × ℚ → ℚ → ℚ) (ppf : ℚ → ℚ) (prcp : List (Nat × ℚ)) :
    ∀ (l : List ℕ) (m : List (ℕ × ℚ × String)),
      multiGo fit cdf ppf prcp l = .ok m →
      m.map Prod.fst = l ∧
        ∀ p ∈ m, computeOneScale fit cdf ppf prcp p.1 = .ok p.2 := by
  intro l
  induction l with
  | nil =>
    intro m h
    simp only [multiGo, Except.ok.injEq] at h
    subst h
    exact ⟨rfl, by simp⟩
  | cons a rest ih =>
    intro m h
    simp only [multiGo] at h
    split at h
    · exact absurd h (by simp)
    · cases heq : computeOneScale fit cdf ppf prcp a with
      | error e => rw [heq] at h; exact absurd h (by simp)
      | ok pr =>
        rw [heq] at h
        dsimp only at h
        cases heq2 : multiGo fit cdf ppf prcp rest with
        | error e => rw [heq2] at h; exact absurd h (by simp)
        | ok tailm =>
          rw [heq2] at h
          dsimp only at h
          rw [Except.ok.injEq] at h
          subst h
          obtain ⟨ih1, ih2⟩ := ih tailm heq2
          refine ⟨by simp [ih1], ?_⟩
          intro p hp
          rcases List.mem_cons.mp hp with rfl | hp2
          · exact heq
          · exact ih2 p hp2

lemma multiGo_fail (fit : List ℚ → Except String (ℚ × ℚ × ℚ))
    (cdf : ℚ × ℚ × ℚ → ℚ → ℚ) (ppf : ℚ → ℚ) (prcp : List (Nat × ℚ)) :
    ∀ (l : List ℕ) (s : ℕ) (e : SpiError), s ∈ l →
      computeOneScale fit cdf ppf prcp s = .error e →
      ∀ m, multiGo fit cdf ppf prcp l ≠ .ok m := by
  intro l
  induction l with
  | nil => intro s e hs; simp at hs
  | cons a rest ih =>
    intro s e hs herr m h
    simp only [multiGo] at h
    split at h
    · exact absurd h (by simp)
    · cases heq : computeOneScale fit cdf ppf prcp a with
      | error e2 => rw [heq] at h; exact absurd h (by simp)
      | ok pr =>
        rw [heq] at h
        dsimp only at h
        cases heq2 : multiGo fit cdf ppf prcp rest with
        | error e2 => rw [heq2] at h; exact absurd h (by simp)
        | ok tailm =>
          rcases List.mem_cons.mp hs with rfl | hs2
          · rw [herr] at heq; exact absurd heq (by simp)
          · exact ih s e hs2 herr tailm heq2

lemma multiGo_single_fail (fit : List ℚ → Except String (ℚ × ℚ × ℚ))
    (cdf : ℚ × ℚ × ℚ → ℚ → ℚ) (ppf : ℚ → ℚ) (prcp : List (Nat × ℚ)) :
    ∀ (l : List ℕ) (s : ℕ) (e : SpiError), s ∈ l → ¬(s < 1 ∨ 24 < s) →
      computeOneScale fit cdf ppf prcp s = .error e →
      (∀ sx ∈ l, sx ≠ s →
        ¬(sx < 1 ∨ 24 < sx) ∧ ∃ pr, computeOneScale fit cdf ppf prcp sx = .ok pr) →
      multiGo fit cdf ppf prcp l = .error (.spiError e) := by
  intro l
  induction l with
  | nil => intro s e hs; simp at hs
  | cons a rest ih =>
    intro s e hs hrange herr hothers
    by_cases has : a = s
    · subst has
      simp only [multiGo]
      rw [if_neg hrange, herr]
    · obtain ⟨harange, pr, hok⟩ :=
        hothers a (List.mem_cons_self a rest) has
      have hs2 : s ∈ rest := by
        rcases List.mem_cons.mp hs with rfl | h2
        · exact absurd rfl has
        · exact h2
      simp only [multiGo]
      rw [if_neg harange, hok]
      dsimp only
      rw [ih s e hs2 hrange herr
        (fun sx hsx hne => hothers sx (List.mem_cons_of_mem a hsx) hne)]

/-- C6: the requested window lengths are deduplicated and sorted ascending
([1,3,1,6] ↦ [1,3,6]); on success the result maps exactly the unique scales,
in order, each to the (latest SPI, category) pair computed independently
from the one shared source series; and if any unique scale's computation
fails, the whole call never returns a (partial) mapping — when exactly one
scale fails, the call fails with precisely that scale's error. -/
theorem multi_scale_c6 (fit : List ℚ → Except String (ℚ × ℚ × ℚ))
    (cdf : ℚ × ℚ × ℚ → ℚ → ℚ) (ppf : ℚ → ℚ) (prcp : List (Nat × ℚ)) :
    dedupSort [1, 3, 1, 6] = [1, 3, 6] ∧
    (∀ scales m,
      compute_multi_scale_spi_for_point fit cdf ppf prcp scales = .ok m →
      m.map Prod.fst = dedupSort scales ∧
        ∀ p ∈ m, computeOneScale fit cdf ppf prcp p.1 = .ok p.2) ∧
    (∀ scales (s : ℕ) (e : SpiError), s ∈ dedupSort scales →
      computeOneScale fit cdf ppf prcp s = .error e →
      ∀ m, compute_multi_scale_spi_for_point fit cdf ppf prcp scales ≠ .ok m) ∧
    (∀ scales (s : ℕ) (e : SpiError), s ∈ dedupSort scales → 1 ≤ s → s ≤ 24 →
      computeOneScale fit cdf ppf prcp s = .error e →
      (∀ sx ∈ dedupSort scales, sx ≠ s →
        1 ≤ sx ∧ sx ≤ 24 ∧ ∃ pr, computeOneScale fit cdf ppf prcp sx = .ok pr) →
      compute_multi_scale_spi_for_point fit cdf ppf prcp scales =
        .error (.spiError e)) := by
  have hne : ∀ (scales : List ℕ) (s : ℕ), s ∈ dedupSort scales → scales ≠ [] := by
    intro scales s hs h
    subst h
    simp [dedupSort] at hs
  refine ⟨by decide, ?_, ?_, ?_⟩
  · intro scales m h
    unfold compute_multi_scale_spi_for_point at h
    split at h
    · exact absurd h (by simp)
    · exact multiGo_ok_map fit cdf ppf prcp (dedupSort scales) m h
  · intro scales s e hs herr m h
    unfold compute_multi_scale_spi_for_point at h
    rw [if_neg (hne scales s hs)] at h
    exact multiGo_fail fit cdf ppf prcp (dedupSort scales) s e hs herr m h
  · intro scales s e hs hlo hhi herr hothers
    unfold compute_multi_scale_spi_for_point
    rw [if_neg (hne scales s hs)]
    refine multiGo_single_fail fit cdf ppf prcp (dedupSort scales) s e hs
      (by omega) herr ?_
    intro sx hsx hnx
    obtain ⟨h1, h2, hpr⟩ := hothers sx hsx hnx
    exact ⟨by omega, hpr⟩

/-- Closed instance of `multi_scale_c6`: scales [1,3,1,6] deduplicate to
[1,3,6], and with an empty precipitation series (every scale fails with
insufficient data) the multi-scale call returns no mapping. -/
theorem multi_scale_c6_witness :
    dedupSort [1, 3, 1, 6] = [1, 3, 6] ∧
    compute_multi_scale_spi_for_point fitK cdfK ppfK [] [1, 3, 1, 6] ≠ .ok [] :=
  ⟨(multi_scale_c6 fitK cdfK ppfK []).1,
    (multi_scale_c6 fitK cdfK ppfK []).2.2.1 [1, 3, 1, 6] 1 .insufficientData
      (by decide) rfl []⟩

/-- Value stored for calendar day `d` in a series, `none` when the index
does not contain `d` (pandas label lookup). -/
def lookupDate (s : List (Nat × Option ℚ)) (d : ℕ) : Option (Option ℚ) :=
  (s.find? fun e => e.1 == d).map Prod.snd

/-- pandas `a.combine_first(b)`: the result is indexed by the union of the
two indexes (sorted, deduplicated); at each label the value is `a`'s if `a`
holds a non-NaN value there, otherwise `b`'s value there (NaN when absent or
NaN in both). -/
def combine_first (a b : List (Nat × Option ℚ)) : List (Nat × Option ℚ) :=
  (dedupSort (a.map Prod.fst ++ b.map Prod.fst)).map fun k =>
    (k, match lookupDate a k with
        | some (some v) => some v
        | _ => (lookupDate b k).bind id)

lemma dedup_append_of_subset (xs ys : List ℕ) (h : ∀ x ∈ xs, x ∈ ys) :
    (xs ++ ys).dedup = ys.dedup := by
  induction xs with
  | nil => rfl
  | cons x xs ih =>
    rw [List.cons_append, List.dedup_cons_of_mem
      (List.mem_append.mpr (Or.inr (h x (List.mem_cons_self x xs))))]
    exact ih fun y hy => h y (List.mem_cons_of_mem x hy)

lemma lookupDate_eq_of_mem (s : List (Nat × Option ℚ))
    (hnd : (s.map Prod.fst).Nodup) (e : Nat × Option ℚ) (he : e ∈ s) :
    lookupDate s e.1 = some e.2 := by
  induction s with
  | nil => cases he
  | cons a t ih =>
    rw [List.map_cons, List.nodup_cons] at hnd
    rcases List.mem_cons.mp he with rfl | ht
    · unfold lookupDate
      rw [List.find?_cons_of_pos _ (by simp)]
      rfl
    · have hne : (a.1 == e.1) = false := by
        simp only [beq_eq_false_iff_ne, ne_eq]
        intro hEq
        exact hnd.1 (hEq ▸ List.mem_map_of_mem Prod.fst ht)
      unfold lookupDate
      rw [List.find?_cons_of_neg _ (by simp [hne])]
      exact ih hnd.2 ht

lemma lookupDate_eq_none (s : List (Nat × Option ℚ)) (d : ℕ)
    (hd : d ∉ s.map Prod.fst) : lookupDate s d = none := by
  unfold lookupDate
  rw [List.find?_eq_none.mpr]
  · rfl
  · intro x hx
    simp only [beq_iff_eq]
    intro hEq
    exact hd (hEq ▸ List.mem_map_of_mem Prod.fst hx)

/-- C10: restricting a (strictly date-sorted) rolling-sum series to the
dates up to `d` and then combining it back with the full series via
`combine_first` is the identity — `rolling_hist.combine_first(rolling_all)`
is pointwise `rolling_all`; consequently the clean and strictly-positive
calibration subsets fed to the gamma fit are those of the full
historical-plus-forecast series, not of the historical restriction. -/
theorem combine_first_identity_c10 (l : List (Nat × Option ℚ)) (d : ℕ)
    (hs : (l.map Prod.fst).Sorted (· < ·)) :
    combine_first (l.filter fun e => decide (e.1 ≤ d)) l = l ∧
    dropna (combine_first (l.filter fun e => decide (e.1 ≤ d)) l) = dropna l ∧
    posOf (combine_first (l.filter fun e => decide (e.1 ≤ d)) l) = posOf l := by
  have hnd : (l.map Prod.fst).Nodup := hs.nodup
  have hfnd : ((l.filter fun e => decide (e.1 ≤ d)).map Prod.fst).Nodup :=
    ((List.filter_sublist l).map Prod.fst).nodup hnd
  have hmain : combine_first (l.filter fun e => decide (e.1 ≤ d)) l = l := by
    unfold combine_first
    have hkeys :
        dedupSort ((l.filter fun e => decide (e.1 ≤ d)).map Prod.fst ++
          l.map Prod.fst) = l.map Prod.fst := by
      unfold dedupSort
      rw [dedup_append_of_subset _ _
          (fun x hx => ((List.filter_sublist l).map Prod.fst).subset hx),
        List.dedup_eq_self.mpr hnd]
      exact List.Sorted.insertionSort_eq (hs.imp fun h => le_of_lt h)
    rw [hkeys, List.map_map]
    have hpt : ∀ e ∈ l,
        ((fun k => (k, match lookupDate (l.filter fun e => decide (e.1 ≤ d)) k with
          | some (some v) => some v
          | _ => (lookupDate l k).bind id)) ∘ Prod.fst) e = id e := by
      intro e he
      have hl : lookupDate l e.1 = some e.2 := lookupDate_eq_of_mem l hnd e he
      show (e.1, match lookupDate (l.filter fun e => decide (e.1 ≤ d)) e.1 with
        | some (some v) => some v
        | _ => (lookupDate l e.1).bind id) = e
      by_cases hle : e.1 ≤ d
      · have hf : lookupDate (l.filter fun e => decide (e.1 ≤ d)) e.1 = some e.2 :=
          lookupDate_eq_of_mem _ hfnd e (List.mem_filter.mpr ⟨he, by simp [hle]⟩)
        rw [hf, hl]
        cases hv : e.2 with
        | none =>
          dsimp only
          exact Prod.ext_iff.mpr ⟨rfl, by simp [hv]⟩
        | some v =>
          dsimp only
          rw [← hv]
      · have hf : lookupDate (l.filter fun e => decide (e.1 ≤ d)) e.1 = none := by
          apply lookupDate_eq_none
          intro hmem
          obtain ⟨e2, he2, he2eq⟩ := List.mem_map.mp hmem
          have he2l : e2 ∈ l := (List.mem_filter.mp he2).1
          have he2le : e2.1 ≤ d := by
            have := (List.mem_filter.mp he2).2
            simpa using this
          have he2e : e2 = e := List.inj_on_of_nodup_map hnd he2l he he2eq
          exact hle (he2e ▸ he2le)
        rw [hf, hl]
        dsimp only
        rfl
    exact (List.map_congr_left hpt).trans (List.map_id l)
  exact ⟨hmain, by rw [hmain], by rw [hmain]⟩

/-- Closed instance of `combine_first_identity_c10` on a concrete series
with a post-`d` (forecast-period) positive entry: the combination is the
identity, so that entry stays in the calibration subset. -/
theorem combine_first_identity_c10_witness :
    combine_first ([( (0 : ℕ), some (1 : ℚ)), (1, none), (2, some 3)].filter
        fun e => decide (e.1 ≤ 1)) [((0 : ℕ), some (1 : ℚ)), (1, none), (2, some 3)] =
      [((0 : ℕ), some (1 : ℚ)), (1, none), (2, some 3)] :=
  (combine_first_identity_c10 [((0 : ℕ), some (1 : ℚ)), (1, none), (2, some 3)] 1
    (by simp [List.Sorted, List.pairwise_cons])).1

/-- `spi_series.asfreq("D")`: re-index onto the full daily grid from the
first to the last index label; existing labels keep their (possibly NaN)
value, inserted labels are NaN. -/
def asfreqD (s : List (Nat × Option ℚ)) : List (Nat × Option ℚ) :=
  match s.head?, s.getLast? with
  | some f, some lst => (List.range (lst.1 + 1 - f.1)).map fun k =>
      (f.1 + k, (lookupDate s (f.1 + k)).bind id)
  | _, _ => []

/-- `Series.interpolate()` with the default linear method on an evenly
spaced series: interior NaN runs are filled linearly between the nearest
defined neighbours, NaNs after the last defined value are filled with that
value, NaNs before the first defined value stay NaN. -/
def interpLinear (vals : List (Option ℚ)) : List (Option ℚ) :=
  vals.enum.map fun p =>
    match p.2 with
    | some x => some x
    | none =>
      match ((vals.enum.filterMap fun q => q.2.map fun x => (q.1, x)).filter
              fun q => decide (q.1 < p.1)).getLast?,
            ((vals.enum.filterMap fun q => q.2.map fun x => (q.1, x)).filter
              fun q => decide (p.1 < q.1)).head? with
      | some jp, some kp =>
          some (jp.2 + (kp.2 - jp.2) * (((p.1 : ℚ) - (jp.1 : ℚ)) / ((kp.1 : ℚ) - (jp.1 : ℚ))))
      | some jp, none => some jp.2
      | none, _ => none

/-- `spi_series.asfreq("D").interpolate()`: the regularized series the
forecaster works on. -/
def regularizeD (s : List (Nat × Option ℚ)) : List (Nat × Option ℚ) :=
  ((asfreqD s).map Prod.fst).zip (interpLinear ((asfreqD s).map Prod.snd))

/-- The last `n` entries of a series of optional values (`Series.tail(n)`). -/
def lastNO (n : ℕ) (l : List (Option ℚ)) : List (Option ℚ) := l.drop (l.length - n)

/-- `series.tail(30).mean()`: arithmetic mean of the non-NaN values among
the last 30 entries, NaN (`none`) when there are none. -/
def fallbackMean (vals : List (Option ℚ)) : Option ℚ :=
  if ((lastNO 30 vals).filterMap id).length = 0 then none
  else some (((lastNO 30 vals).filterMap id).sum /
    (((lastNO 30 vals).filterMap id).length : ℚ))

/-- `forecast_spi` from `spi.py`: regularize the series, try the SARIMA
model (an uninterpreted oracle here — `none` models "fails to fit or
forecast for any reason"), and on failure fall back to
`spi_series.tail(30).mean()` evaluated on the regularized series (the local
variable was reassigned before the `try`). -/
def forecast_spi (sarima : List (Nat × Option ℚ) → Option ℚ)
    (spi_series : List (Nat × Option ℚ)) : Option ℚ :=
  match sarima (regularizeD spi_series) with
  | some f => some f
  | none => fallbackMean ((regularizeD spi_series).map Prod.snd)

/-- The last `n` entries of a list of plain values. -/
def lastN (n : ℕ) (l : List ℚ) : List ℚ := l.drop (l.length - n)

/-- The fallback value the spec describes: the arithmetic mean of the last
30 defined SPI observations of the input series. -/
def spec_fallback_mean (s : List (Nat × Option ℚ)) : Option ℚ :=
  if (lastN 30 ((dropna s).map Prod.snd)).length = 0 then none
  else some ((lastN 30 ((dropna s).map Prod.snd)).sum /
    ((lastN 30 ((dropna s).map Prod.snd)).length : ℚ))

/-- Claim C2 as stated, for the part of the failure policy that is visible
in the shallow embedding: whenever the seasonal model fails (the oracle
answers `none`), `forecast_spi` returns the arithmetic mean of the last 30
defined observations of the input SPI series. -/
def claimC2 : Prop :=
  ∀ (sarima : List (Nat × Option ℚ) → Option ℚ) (s : List (Nat × Option ℚ)),
    sarima (regularizeD s) = none → dropna s ≠ [] →
    forecast_spi sarima s = spec_fallback_mean s

/-- C2 fails on the code: for the series with values 0, 0 on days 0, 1 and
3 on day 3, the regularization inserts the interpolated value 3/2 at day 2,
so the code's fallback averages [0, 0, 3/2, 3] to 9/8, while the mean of
the last 30 *defined observations* is (0+0+3)/3 = 1. -/
theorem forecast_fallback_c2_counterexample : ¬ claimC2 := by
  intro h
  have h1 := h (fun _ => none) [(0, some 0), (1, some 0), (3, some 3)] rfl
    (by simp [dropna, List.filterMap_cons])
  have h2 : forecast_spi (fun _ => none) [(0, some 0), (1, some 0), (3, some 3)] =
      some (9/8) := by
    norm_num [forecast_spi, regularizeD, asfreqD, interpLinear, lookupDate,
      List.range_succ, List.enum, List.enumFrom, List.filter, fallbackMean,
      lastNO, List.filterMap_cons]
  have h3 : spec_fallback_mean [(0, some 0), (1, some 0), (3, some 3)] = some 1 := by
    norm_num [spec_fallback_mean, dropna, lastN, List.filterMap_cons]
  rw [h2, h3] at h1
  norm_num at h1

lemma dropna_map_snd (L : List (Nat × Option ℚ)) :
    (dropna L).map Prod.snd = (L.map Prod.snd).filterMap id := by
  induction L with
  | nil => rfl
  | cons a t ih =>
    cases ha : a.2 <;>
      simp [dropna, List.filterMap_cons, ha] <;>
      simpa [dropna] using ih

lemma all_some_exists (L : List (Nat × Option ℚ))
    (hall : ∀ e ∈ L, e.2.isSome = true) :
    ∃ ws : List ℚ, L.map Prod.snd = ws.map some := by
  induction L with
  | nil => exact ⟨[], rfl⟩
  | cons a t ih =>
    obtain ⟨v, hv⟩ := Option.isSome_iff_exists.mp
      (hall a (List.mem_cons_self a t))
    obtain ⟨ws, hws⟩ := ih fun e he => hall e (List.mem_cons_of_mem a he)
    exact ⟨v :: ws, by simp [hv, hws]⟩

lemma filterMap_id_map_some (ws : List ℚ) : (ws.map some).filterMap id = ws := by
  induction ws with
  | nil => rfl
  | cons w ws ih => simp [List.filterMap_cons, ih]

lemma fallback_eq_spec_of_all_defined (L : List (Nat × Option ℚ))
    (hall : ∀ e ∈ L, e.2.isSome = true) :
    fallbackMean (L.map Prod.snd) = spec_fallback_mean L := by
  obtain ⟨ws, hws⟩ := all_some_exists L hall
  unfold fallbackMean spec_fallback_mean lastNO lastN
  rw [dropna_map_snd, hws, filterMap_id_map_some, List.length_map,
    ← List.map_drop, filterMap_id_map_some]

/-- C2 amended: when the seasonal model fails, `forecast_spi` returns the
mean of the non-NaN values among the last 30 entries of the *regularized*
(daily-resampled, linearly interpolated) series — which, whenever the
regularized series is fully defined, equals the mean of the last 30 values
of that regularized series, interpolated fill-ins included; it does not in
general equal the mean of the last 30 defined observations of the raw
input. -/
theorem forecast_fallback_amended_c2
    (sarima : List (Nat × Option ℚ) → Option ℚ) (s : List (Nat × Option ℚ))
    (hsar : sarima (regularizeD s) = none)
    (hall : ∀ e ∈ regularizeD s, e.2.isSome = true) :
    forecast_spi sarima s = spec_fallback_mean (regularizeD s) := by
  unfold forecast_spi
  rw [hsar]
  exact fallback_eq_spec_of_all_defined (regularizeD s) hall

/-- Closed instance of `forecast_fallback_amended_c2` at a gap-free
two-point series. -/
theorem forecast_fallback_amended_c2_witness :
    forecast_spi (fun _ => none) [((0 : ℕ), some (1 : ℚ)), (1, some 2)] =
      spec_fallback_mean (regularizeD [((0 : ℕ), some (1 : ℚ)), (1, some 2)]) :=
  forecast_fallback_amended_c2 (fun _ => none)
    [((0 : ℕ), some (1 : ℚ)), (1, some 2)] rfl (by decide)

end AgroCast
